import Mathlib

/-!
# Fixed-width arithmetic in the C++ foundations exercises

A shallow embedding of two of the exercise programs:

* `Ch03/03_08/CodeDemo.cpp`: `my_average(int, int8_t, uint32_t)` and its `main`;
* `Ch02/02_05b/CodeDemo.cpp`: the globals `a`, `b` and `main`.

Machine integers are mathematical integers together with their ranges.  The
programs have no error path: `int` arithmetic is the 32-bit two's complement
operation of the target, whose result is reduced modulo `2 ^ 32` into the
`int` range, and unsigned arithmetic wraps modulo `2 ^ 32`.  A finite `double`
is the rational number it denotes, and `/` on doubles is the quotient rounded
to the nearest value with a 53-bit significand, ties to even.
-/

namespace CppFoundations

/-! ## Integer types -/

/-- Smallest value of a 32-bit `int`. -/
def INT_MIN : Int := -2147483648

/-- Largest value of a 32-bit `int`. -/
def INT_MAX : Int := 2147483647

/-- Number of values of a 32-bit `unsigned int` (`uint32_t`). -/
def UINT_MOD : Nat := 4294967296

/-- Values of type `int` (32 bits, two's complement). -/
def isInt32 (x : Int) : Prop := INT_MIN ≤ x ∧ x ≤ INT_MAX

/-- Values of type `int8_t`. -/
def isInt8 (x : Int) : Prop := -128 ≤ x ∧ x ≤ 127

/-- Values of type `uint32_t`. -/
def isUInt32 (n : Nat) : Prop := n < UINT_MOD

instance (x : Int) : Decidable (isInt32 x) := by unfold isInt32; infer_instance
instance (x : Int) : Decidable (isInt8 x) := by unfold isInt8; infer_instance
instance (n : Nat) : Decidable (isUInt32 n) := by unfold isUInt32; infer_instance

/-- Integral promotion of an `int8_t` operand to `int`: the value is kept. -/
def promoteInt8 (b : Int) : Int := b

/-- The 32-bit two's complement pattern of an integer read as an `int`: the
value congruent to `x` modulo `2 ^ 32` that lies in `[INT_MIN, INT_MAX]`. -/
def wrapInt (x : Int) : Int := (x - INT_MIN) % (UINT_MOD : Int) + INT_MIN

/-- The `int + int` operator: the mathematical sum when it is representable,
and the 32-bit two's complement result of the addition otherwise. -/
def addInt (x y : Int) : Int := wrapInt (x + y)

/-- The `int - int` operator, with the same convention as `addInt`. -/
def subInt (x y : Int) : Int := wrapInt (x - y)

/-- Conversion of an `int` to `unsigned int`: reduction modulo `2 ^ 32`. -/
def toUnsigned (x : Int) : Nat := (x % (UINT_MOD : Int)).toNat

/-- The `unsigned + unsigned` operator: addition modulo `2 ^ 32`. -/
def addUnsigned (x y : Nat) : Nat := (x + y) % UINT_MOD

/-! ## Doubles -/

/-- A finite `double`, identified with the rational number it denotes. -/
abbrev Double := ℚ

/-- Nearest integer to `num / den`, ties going to the even neighbour. -/
def roundHalfEven (num den : Nat) : Nat :=
  if 2 * (num % den) < den then num / den
  else if den < 2 * (num % den) then num / den + 1
  else if (num / den) % 2 = 0 then num / den
  else num / den + 1

/-- Search, from `k` upwards, for the first binary scale `k` at which
`n * 2 ^ k / d` reaches `2 ^ 52`. -/
def normExp (n d : Nat) : Nat → Nat → Nat
  | 0, k => k
  | fuel + 1, k => if d * 2 ^ 52 ≤ n * 2 ^ k then k else normExp n d fuel (k + 1)

/-- Conversion of an `unsigned int` to `double`; every 32-bit value is
representable, so the conversion is exact. -/
def unsignedToDouble (n : Nat) : Double := (n : ℚ)

/-- The quotient `n / d` of two doubles holding the non-negative integers `n`
and `d`, for `0 ≤ n / d < 2 ^ 53` in the normal range: the exact quotient is
scaled to a 53-bit significand, rounded to nearest-even and scaled back. -/
def fdiv (n d : Nat) : Double :=
  if n = 0 then 0
  else (roundHalfEven (n * 2 ^ normExp n d 1100 0) d : ℚ) / 2 ^ normExp n d 1100 0

/-! ## `Ch03/03_08`: `my_average` -/

/-- One item inserted into `std::cout`. -/
inductive Out where
  | str (s : String)
  | int (i : Int)
  | uint (n : Nat)
  | bool (b : Bool)
  | dbl (x : Double)
  | endl
  deriving DecidableEq

/-- The contents of `std::cout`, the only object outside a function body that
the programs can reach besides their globals. -/
abbrev Stream := List Out

/-- The integer operand `a + b + c` of the division in `my_average`:
`b` is promoted to `int`, `a + b` is an `int` addition, the result is
converted to `unsigned` for the addition with `c`. -/
def my_average_sum (a b : Int) (c : Nat) : Nat :=
  addUnsigned (toUnsigned (addInt a (promoteInt8 b))) c

/-- The function `double my_average(int a, int8_t b, uint32_t c)`, run with
`std::cout` holding `cout`: `result = (a + b + c) / 3.0; return result;`
(the initial value 0.0 of `result` is overwritten before it is read).
The value returned is paired with the stream after the call. -/
def my_average (cout : Stream) (a b : Int) (c : Nat) : Double × Stream :=
  let result : Double := fdiv (my_average_sum a b c) 3
  (result, cout)

/-- The quotient of the integer sum by three before it is rounded to a
`double`. -/
def my_average_exact (a b : Int) (c : Nat) : ℚ :=
  unsignedToDouble (my_average_sum a b c) / 3

/-- The function `main` of `Ch03/03_08`: returns the exit status and the
stream after the run. -/
def main_03_08 (cout : Stream) : Int × Stream :=
  let a : Int := 0
  let b : Int := 15
  let c : Nat := 30
  match my_average cout a b c with
  | (learnerResult, cout1) =>
    (0, cout1 ++ [Out.str "Your code returned: ", Out.dbl learnerResult, Out.endl,
                  Out.endl, Out.endl])

/-! ## `Ch02/02_05b`: globals and `main` -/

/-- The variables `a` and `b` defined at file scope. -/
structure Globals where
  a : Int
  b : Int
  deriving DecidableEq

/-- Static initialisation: `int a, b = 5;` zero-initialises `a`. -/
def initGlobals : Globals := { a := 0, b := 5 }

/-- The function `main` of `Ch02/02_05b`: returns the exit status, the
final value of the local `positive`, the globals and the stream. -/
def main_02_05b (g : Globals) (cout : Stream) : Int × Nat × Globals × Stream :=
  let g1 : Globals := { g with a := 7 }
  let my_flag := false
  let cout1 := cout ++ [Out.str "a = ", Out.int g1.a, Out.endl]
  let cout2 := cout1 ++ [Out.str "b = ", Out.int g1.b, Out.endl]
  let cout3 := cout2 ++ [Out.str "flag = ", Out.bool my_flag, Out.endl]
  let my_flag := true
  let cout4 := cout3 ++ [Out.str "flag = ", Out.bool my_flag, Out.endl]
  let cout5 := cout4 ++ [Out.str "a + b = ", Out.int (addInt g1.a g1.b), Out.endl]
  let cout6 := cout5 ++ [Out.str "b - a = ", Out.int (subInt g1.b g1.a), Out.endl]
  let positive := toUnsigned (subInt g1.b g1.a)
  let cout7 := cout6 ++ [Out.str "b - a (unsigned) = ", Out.uint positive, Out.endl]
  (0, positive, g1, cout7 ++ [Out.endl, Out.endl])

/-- Text written by `operator<<` for one item; `bool` prints as `0` or `1`
(no `boolalpha`), `endl` as a newline.  The formatting of a `double` is not
modelled. -/
def render : Out → Option String
  | Out.str s => some s
  | Out.int i => some (toString i)
  | Out.uint n => some (toString n)
  | Out.bool b => some (if b then "1" else "0")
  | Out.dbl _ => none
  | Out.endl => some "\n"

/-- Text of a whole stream, when every item has a modelled rendering. -/
def renderAll : Stream → Option String
  | [] => some ""
  | o :: rest =>
    match render o, renderAll rest with
    | some s, some t => some (s ++ t)
    | _, _ => none

/-! ## Arithmetic lemmas -/

theorem wrapInt_of_fits (x : Int) (h : isInt32 x) : wrapInt x = x := by
  unfold isInt32 INT_MIN INT_MAX at h
  unfold wrapInt INT_MIN UINT_MOD
  omega

theorem wrapInt_fits (x : Int) : isInt32 (wrapInt x) := by
  unfold isInt32 wrapInt INT_MIN INT_MAX UINT_MOD
  omega

theorem addUnsigned_lt (x y : Nat) : addUnsigned x y < UINT_MOD := by
  unfold addUnsigned UINT_MOD
  omega

theorem addUnsigned_toUnsigned (x : Int) (c : Nat) :
    addUnsigned (toUnsigned x) c = ((x + (c : Int)) % 4294967296).toNat := by
  unfold addUnsigned toUnsigned UINT_MOD
  omega

theorem addInt_of_fits (x y : Int) (h : isInt32 (x + y)) : addInt x y = x + y := by
  unfold addInt
  exact wrapInt_of_fits _ h

theorem my_average_sum_eq (a b : Int) (c : Nat) :
    my_average_sum a b c = ((a + b + (c : Int)) % 4294967296).toNat := by
  unfold my_average_sum promoteInt8 addInt wrapInt addUnsigned toUnsigned INT_MIN UINT_MOD
  omega

theorem my_average_sum_lt (a b : Int) (c : Nat) : my_average_sum a b c < UINT_MOD := by
  unfold my_average_sum
  exact addUnsigned_lt _ _

theorem my_average_eq (cout : Stream) (a b : Int) (c : Nat) :
    my_average cout a b c = (fdiv (my_average_sum a b c) 3, cout) := rfl

theorem my_average_exact_eq (a b : Int) (c : Nat) :
    my_average_exact a b c = (my_average_sum a b c : ℚ) / 3 := rfl

/-! ## Rounding lemmas -/

theorem roundHalfEven_three_le (N Q : Nat) (h : N ≤ 3 * Q) : roundHalfEven N 3 ≤ Q := by
  unfold roundHalfEven
  split_ifs <;> omega

theorem roundHalfEven_three_near (N : Nat) :
    3 * roundHalfEven N 3 ≤ N + 1 ∧ N ≤ 3 * roundHalfEven N 3 + 1 := by
  unfold roundHalfEven
  split_ifs <;> omega

theorem normExp_spec (n d : Nat) :
    ∀ fuel k : Nat, n * 2 ^ k < d * 2 ^ 53 → d * 2 ^ 52 ≤ n * 2 ^ (k + fuel) →
      d * 2 ^ 52 ≤ n * 2 ^ normExp n d fuel k ∧ n * 2 ^ normExp n d fuel k < d * 2 ^ 53 := by
  intro fuel
  induction fuel with
  | zero =>
    intro k hlt hge
    exact ⟨by simpa [normExp] using hge, by simpa [normExp] using hlt⟩
  | succ f ih =>
    intro k hlt hge
    unfold normExp
    split_ifs with hk
    · exact ⟨hk, hlt⟩
    · apply ih (k + 1)
      · have e2 : n * 2 ^ (k + 1) = 2 * (n * 2 ^ k) := by ring
        rw [e2]
        omega
      · have e : k + 1 + f = k + (f + 1) := by omega
        rw [e]
        exact hge

theorem normExp_three (n : Nat) (h0 : 0 < n) (h : n < UINT_MOD) :
    3 * 2 ^ 52 ≤ n * 2 ^ normExp n 3 1100 0 ∧ n * 2 ^ normExp n 3 1100 0 < 3 * 2 ^ 53 := by
  apply normExp_spec n 3 1100 0
  · unfold UINT_MOD at h
    norm_num
    omega
  · have h1 : 1 * 2 ^ (0 + 1100) ≤ n * 2 ^ (0 + 1100) := Nat.mul_le_mul_right _ h0
    have h2 : 3 * 2 ^ 52 ≤ 1 * 2 ^ (0 + 1100) := by norm_num
    exact le_trans h2 h1

theorem fdiv_three_nonneg (s : Nat) : 0 ≤ fdiv s 3 := by
  unfold fdiv
  split_ifs
  · exact le_refl _
  · positivity

theorem fdiv_three_le (s : Nat) (h : s < UINT_MOD) : fdiv s 3 ≤ 1431655765 := by
  unfold fdiv
  split_ifs
  · norm_num
  · have hN : s * 2 ^ normExp s 3 1100 0 ≤ 3 * (1431655765 * 2 ^ normExp s 3 1100 0) := by
      unfold UINT_MOD at h
      have : s ≤ 3 * 1431655765 := by omega
      calc s * 2 ^ normExp s 3 1100 0
          ≤ (3 * 1431655765) * 2 ^ normExp s 3 1100 0 := Nat.mul_le_mul_right _ this
        _ = 3 * (1431655765 * 2 ^ normExp s 3 1100 0) := by ring
    have hm := roundHalfEven_three_le _ _ hN
    have hq : ((roundHalfEven (s * 2 ^ normExp s 3 1100 0) 3 : Nat) : ℚ)
        ≤ ((1431655765 * 2 ^ normExp s 3 1100 0 : Nat) : ℚ) := by exact_mod_cast hm
    rw [div_le_iff₀ (by positivity)]
    push_cast at hq
    exact hq

theorem fdiv_three_error (s : Nat) (h : s < UINT_MOD) :
    |fdiv s 3 - (s : ℚ) / 3| ≤ (s : ℚ) / 3 / 2 ^ 53 := by
  unfold fdiv
  split_ifs with hs
  · subst hs
    norm_num
  · obtain ⟨hlo, _⟩ := normExp_three s (Nat.pos_of_ne_zero hs) h
    obtain ⟨h1, h2⟩ := roundHalfEven_three_near (s * 2 ^ normExp s 3 1100 0)
    generalize normExp s 3 1100 0 = k at hlo h1 h2 ⊢
    generalize roundHalfEven (s * 2 ^ k) 3 = m at h1 h2 ⊢
    have hK : (0 : ℚ) < 2 ^ k := by positivity
    have q1 : (3 : ℚ) * m ≤ s * 2 ^ k + 1 := by exact_mod_cast h1
    have q2 : (s : ℚ) * 2 ^ k ≤ 3 * m + 1 := by exact_mod_cast h2
    have q3 : (3 : ℚ) * 2 ^ 52 ≤ s * 2 ^ k := by exact_mod_cast hlo
    rw [abs_le]
    constructor
    · rw [neg_le_sub_iff_le_add, ← sub_le_iff_le_add, le_div_iff₀ hK]
      norm_num at q3 ⊢
      nlinarith
    · rw [sub_le_iff_le_add, div_le_iff₀ hK]
      norm_num at q3 ⊢
      nlinarith

theorem fdiv_three_mul (q : Nat) : fdiv (3 * q) 3 = (q : ℚ) := by
  unfold fdiv
  split_ifs with hq
  · have : q = 0 := by omega
    subst this
    norm_num
  · generalize normExp (3 * q) 3 1100 0 = k
    have hr : roundHalfEven (3 * q * 2 ^ k) 3 = q * 2 ^ k := by
      unfold roundHalfEven
      have e : 3 * q * 2 ^ k = 3 * (q * 2 ^ k) := by ring
      rw [e]
      split_ifs <;> omega
    rw [hr]
    push_cast
    field_simp

theorem fdiv_three_not_truncated (s : Nat) (h : s < UINT_MOD) (hmod : s % 3 ≠ 0) :
    fdiv s 3 ≠ ((s / 3 : Nat) : ℚ) := by
  intro heq
  have herr := fdiv_three_error s h
  rw [heq, abs_le] at herr
  obtain ⟨lo, _⟩ := herr
  have hs : (s : ℚ) = 3 * ((s / 3 : Nat) : ℚ) + ((s % 3 : Nat) : ℚ) := by
    exact_mod_cast (Nat.div_add_mod s 3).symm
  have hr : (1 : ℚ) ≤ ((s % 3 : Nat) : ℚ) := by
    exact_mod_cast Nat.pos_of_ne_zero hmod
  have hlt : (s : ℚ) < 4294967296 := by
    unfold UINT_MOD at h
    exact_mod_cast h
  norm_num at lo
  linarith

theorem fdiv_ten_three : fdiv 10 3 = 7505999378950827 / 2251799813685248 := by
  have hk : normExp 10 3 1100 0 = 51 := by decide
  simp only [fdiv, hk]
  norm_num [roundHalfEven]

/-! ## The reference call -/

/-- C1: `my_average(0, 15, 30)` divides the sum 45 and returns exactly 15.0
(45 / 3.0 = 15.0); `main` of Ch03/03_08 makes this call and inserts the result
into `std::cout` right after the text "Your code returned: ". -/
theorem reference_scenario_returns_fifteen (cout : Stream) :
    my_average_sum 0 15 30 = 45 ∧
    my_average_exact 0 15 30 = 15 ∧
    my_average cout 0 15 30 = (15, cout) ∧
    main_03_08 cout =
      (0, cout ++ [Out.str "Your code returned: ", Out.dbl 15, Out.endl,
                   Out.endl, Out.endl]) := by
  have hs : my_average_sum 0 15 30 = 45 := by decide
  have hf : fdiv 45 3 = 15 := by
    have h := fdiv_three_mul 15
    norm_num at h
    exact h
  have hm : my_average cout 0 15 30 = (15, cout) := by
    rw [my_average_eq, hs, hf]
  refine ⟨hs, ?_, hm, ?_⟩
  · rw [my_average_exact_eq, hs]
    norm_num
  · simp only [main_03_08, hm]

/-! ## Non-negative operands -/

/-- C2: for `a ≥ 0`, `b ≥ 0` and `c` whose mathematical sum `a + b + c` is
below `2 ^ 32`, the integer sum that `my_average` divides is `a + b + c`
computed in unbounded arithmetic; it is below `2 ^ 53`, so its conversion to
`double` is exact, and the result is that number divided by 3.0. -/
theorem nonneg_sum_is_exact (a b : Int) (c : Nat)
    (_ha : isInt32 a) (_hb : isInt8 b) (_hc : isUInt32 c)
    (ha0 : 0 ≤ a) (hb0 : 0 ≤ b) (hsum : a + b + (c : Int) < 4294967296) :
    my_average_sum a b c = (a + b + (c : Int)).toNat ∧
    (((a + b + (c : Int)).toNat : Nat) : Int) = a + b + (c : Int) ∧
    (a + b + (c : Int)).toNat < 2 ^ 53 ∧
    my_average_exact a b c = (a + b + (c : ℚ)) / 3 ∧
    ∀ cout : Stream,
      my_average cout a b c = (fdiv (a + b + (c : Int)).toNat 3, cout) := by
  have hmod : (a + b + (c : Int)) % 4294967296 = a + b + (c : Int) :=
    Int.emod_eq_of_lt (by omega) hsum
  have hs : my_average_sum a b c = (a + b + (c : Int)).toNat := by
    rw [my_average_sum_eq, hmod]
  have hnat : (((a + b + (c : Int)).toNat : Nat) : Int) = a + b + (c : Int) :=
    Int.toNat_of_nonneg (by omega)
  refine ⟨hs, hnat, by omega, ?_, ?_⟩
  · rw [my_average_exact_eq, hs]
    have hq : (((a + b + (c : Int)).toNat : Nat) : ℚ) = (a : ℚ) + (b : ℚ) + (c : ℚ) := by
      have h : ((((a + b + (c : Int)).toNat : Nat) : Int) : ℚ)
          = ((a + b + (c : Int) : Int) : ℚ) := by
        rw [hnat]
      push_cast at h
      exact h
    rw [hq]
  · intro cout
    rw [my_average_eq, hs]

theorem nonneg_sum_is_exact_witness :
    (isInt32 2147483647 ∧ isInt8 127 ∧ isUInt32 2000000000 ∧
      (0 : Int) ≤ 2147483647 ∧ (0 : Int) ≤ 127 ∧
      (2147483647 : Int) + 127 + ((2000000000 : Nat) : Int) < 4294967296) ∧
    (my_average_sum 2147483647 127 2000000000
        = ((2147483647 : Int) + 127 + ((2000000000 : Nat) : Int)).toNat ∧
      ((((2147483647 : Int) + 127 + ((2000000000 : Nat) : Int)).toNat : Nat) : Int)
        = 2147483647 + 127 + ((2000000000 : Nat) : Int) ∧
      ((2147483647 : Int) + 127 + ((2000000000 : Nat) : Int)).toNat < 2 ^ 53 ∧
      my_average_exact 2147483647 127 2000000000
        = (((2147483647 : Int) : ℚ) + ((127 : Int) : ℚ) + ((2000000000 : Nat) : ℚ)) / 3 ∧
      ∀ cout : Stream,
        my_average cout 2147483647 127 2000000000
          = (fdiv ((2147483647 : Int) + 127 + ((2000000000 : Nat) : Int)).toNat 3, cout)) :=
  ⟨⟨by decide, by decide, by decide, by decide, by decide, by decide⟩,
    nonneg_sum_is_exact 2147483647 127 2000000000 (by decide) (by decide) (by decide)
      (by decide) (by decide) (by decide)⟩

/-! ## Signed operands in unsigned arithmetic -/

/-- C3: when `a + b` fits in an `int`, the sum that `my_average` divides by
3.0 is the unsigned 32-bit value `(a + b + c) mod 2 ^ 32`: `b` is promoted to
`int`, `a + b` is added as `int`, that `int` is converted to `unsigned`, and
the addition with `c` wraps modulo `2 ^ 32`; a value is always returned. -/
theorem sum_is_unsigned_wraparound (a b : Int) (c : Nat)
    (_ha : isInt32 a) (_hb : isInt8 b) (_hc : isUInt32 c) (hab : isInt32 (a + b)) :
    addInt a (promoteInt8 b) = a + b ∧
    my_average_sum a b c = addUnsigned (toUnsigned (a + b)) c ∧
    my_average_sum a b c = ((a + b + (c : Int)) % 4294967296).toNat ∧
    ((a + b + (c : Int)) % 4294967296).toNat < 4294967296 ∧
    ∀ cout : Stream,
      my_average cout a b c
        = (fdiv ((a + b + (c : Int)) % 4294967296).toNat 3, cout) := by
  have hs := my_average_sum_eq a b c
  refine ⟨addInt_of_fits a b hab, ?_, hs, by omega, ?_⟩
  · rw [hs, addUnsigned_toUnsigned]
  · intro cout
    rw [my_average_eq, hs]

theorem sum_is_unsigned_wraparound_witness :
    (isInt32 (-2000000000) ∧ isInt8 (-128) ∧ isUInt32 4294967295 ∧
      isInt32 (-2000000000 + -128)) ∧
    (addInt (-2000000000) (promoteInt8 (-128)) = -2000000000 + -128 ∧
      my_average_sum (-2000000000) (-128) 4294967295
        = addUnsigned (toUnsigned (-2000000000 + -128)) 4294967295 ∧
      my_average_sum (-2000000000) (-128) 4294967295
        = ((-2000000000 + -128 + ((4294967295 : Nat) : Int)) % 4294967296).toNat ∧
      ((-2000000000 + -128 + ((4294967295 : Nat) : Int)) % 4294967296).toNat < 4294967296 ∧
      ∀ cout : Stream,
        my_average cout (-2000000000) (-128) 4294967295
          = (fdiv ((-2000000000 + -128 + ((4294967295 : Nat) : Int)) % 4294967296).toNat 3,
              cout)) :=
  ⟨⟨by decide, by decide, by decide, by decide⟩,
    sum_is_unsigned_wraparound (-2000000000) (-128) 4294967295
      (by decide) (by decide) (by decide) (by decide)⟩

/-- C4, as stated, fails at `a = -10`, `b = 3`, `c = 1`: `c` fits in the
positive signed range and the mathematical sum `-6` lies in the signed 32-bit
range, but the sum that is divided is the unsigned value `4294967290`. -/
theorem negative_sum_is_not_signed :
    isInt32 (-10) ∧ isInt8 3 ∧ isUInt32 1 ∧ ((1 : Nat) : Int) ≤ INT_MAX ∧
    isInt32 (-10 + 3 + ((1 : Nat) : Int)) ∧
    my_average_sum (-10) 3 1 = 4294967290 ∧
    ((4294967290 : Nat) : Int) ≠ -10 + 3 + ((1 : Nat) : Int) := by
  decide

/-- C4, amended: the summation in `my_average` ends in the common unsigned
32-bit type.  For `c ≤ 2 ^ 31 - 1` and a mathematical sum `a + b + c` in the
signed 32-bit range, the sum that is divided equals `a + b + c` when that sum
is not negative, and equals `a + b + c + 2 ^ 32` when it is negative. -/
theorem sum_in_signed_range (a b : Int) (c : Nat)
    (_ha : isInt32 a) (_hb : isInt8 b) (_hc : isUInt32 c)
    (_hc31 : (c : Int) ≤ INT_MAX) (hsum : isInt32 (a + b + (c : Int))) :
    (0 ≤ a + b + (c : Int) →
      my_average_sum a b c = (a + b + (c : Int)).toNat ∧
      (((a + b + (c : Int)).toNat : Nat) : Int) = a + b + (c : Int)) ∧
    (a + b + (c : Int) < 0 →
      my_average_sum a b c = (a + b + (c : Int) + 4294967296).toNat ∧
      (((a + b + (c : Int) + 4294967296).toNat : Nat) : Int)
        = a + b + (c : Int) + 4294967296) := by
  simp only [isInt32, INT_MIN, INT_MAX] at hsum
  constructor
  · intro h0
    have hmod : (a + b + (c : Int)) % 4294967296 = a + b + (c : Int) :=
      Int.emod_eq_of_lt h0 (by omega)
    rw [my_average_sum_eq, hmod]
    exact ⟨rfl, Int.toNat_of_nonneg h0⟩
  · intro hneg
    have hmod : (a + b + (c : Int)) % 4294967296 = a + b + (c : Int) + 4294967296 := by
      omega
    rw [my_average_sum_eq, hmod]
    exact ⟨rfl, Int.toNat_of_nonneg (by omega)⟩

theorem sum_in_signed_range_witness :
    (isInt32 (-2147483640) ∧ isInt8 (-128) ∧ isUInt32 200 ∧ ((200 : Nat) : Int) ≤ INT_MAX ∧
      isInt32 (-2147483640 + -128 + ((200 : Nat) : Int)) ∧
      (-2147483640 : Int) + -128 + ((200 : Nat) : Int) < 0) ∧
    (my_average_sum (-2147483640) (-128) 200
        = (-2147483640 + -128 + ((200 : Nat) : Int) + 4294967296).toNat ∧
      (((-2147483640 + -128 + ((200 : Nat) : Int) + 4294967296).toNat : Nat) : Int)
        = -2147483640 + -128 + ((200 : Nat) : Int) + 4294967296) :=
  ⟨⟨by decide, by decide, by decide, by decide, by decide, by decide⟩,
    (sum_in_signed_range (-2147483640) (-128) 200 (by decide) (by decide) (by decide)
      (by decide) (by decide)).2 (by decide)⟩

/-- C5: in `my_average(-1, 0, 0)` the signed value `-1` is converted to the
largest unsigned 32-bit value before the summation completes: the sum divided
is `2 ^ 32 - 1 = 4294967295` and the value returned is
`4294967295 / 3.0 = 1431655765.0`, an exact quotient, not `-1/3`. -/
theorem minus_one_becomes_max_unsigned (cout : Stream) :
    addInt (-1) (promoteInt8 0) = -1 ∧
    toUnsigned (-1) = 4294967295 ∧
    4294967295 = 2 ^ 32 - 1 ∧
    my_average_sum (-1) 0 0 = 4294967295 ∧
    my_average_exact (-1) 0 0 = 1431655765 ∧
    my_average cout (-1) 0 0 = (1431655765, cout) ∧
    my_average cout (-1) 0 0 ≠ (-1 / 3, cout) := by
  have hs : my_average_sum (-1) 0 0 = 4294967295 := by decide
  have hf : fdiv 4294967295 3 = 1431655765 := by
    have h := fdiv_three_mul 1431655765
    norm_num at h
    exact h
  have hm : my_average cout (-1) 0 0 = (1431655765, cout) := by
    rw [my_average_eq, hs, hf]
  refine ⟨by decide, by decide, by norm_num, hs, ?_, hm, ?_⟩
  · rw [my_average_exact_eq, hs]
    norm_num
  · rw [hm]
    intro h
    have h1 : (1431655765 : ℚ) = -1 / 3 := congrArg Prod.fst h
    norm_num at h1

/-! ## Division by 3.0 -/

/-- C6: `my_average` divides the integer sum `s` by the `double` 3.0 and does
not truncate: for every input the quotient `q` before rounding satisfies
`3 * q = s`, the value returned is that quotient rounded to a `double`
(relative error at most `2 ^ -53`), and it differs from the truncated integer
quotient whenever 3 does not divide `s`.  For `s = 10`, as in
`my_average(0, 0, 10)` and `my_average(3, 3, 4)`, the result is the `double`
nearest to 10/3, about 3.3333333333333335, and is not 3. -/
theorem division_is_floating_point (cout : Stream) (a b : Int) (c : Nat) :
    3 * my_average_exact a b c = (my_average_sum a b c : ℚ) ∧
    my_average cout a b c = (fdiv (my_average_sum a b c) 3, cout) ∧
    |(my_average cout a b c).1 - (my_average_sum a b c : ℚ) / 3|
      ≤ (my_average_sum a b c : ℚ) / 3 / 2 ^ 53 ∧
    (my_average_sum a b c % 3 ≠ 0 →
      (my_average cout a b c).1 ≠ ((my_average_sum a b c / 3 : Nat) : ℚ)) ∧
    my_average_sum 0 0 10 = 10 ∧
    my_average_sum 3 3 4 = 10 ∧
    my_average cout 0 0 10 = (7505999378950827 / 2251799813685248, cout) ∧
    my_average cout 3 3 4 = (7505999378950827 / 2251799813685248, cout) ∧
    fdiv 10 3 = 7505999378950827 / 2251799813685248 ∧
    fdiv 10 3 ≠ 3 ∧
    |fdiv 10 3 - 10 / 3| < 1 / 10 ^ 15 := by
  have hlt := my_average_sum_lt a b c
  have h1 : my_average_sum 0 0 10 = 10 := by decide
  have h2 : my_average_sum 3 3 4 = 10 := by decide
  refine ⟨?_, rfl, fdiv_three_error _ hlt, fdiv_three_not_truncated _ hlt, h1, h2, ?_, ?_,
    fdiv_ten_three, ?_, ?_⟩
  · rw [my_average_exact_eq]
    ring
  · rw [my_average_eq, h1, fdiv_ten_three]
  · rw [my_average_eq, h2, fdiv_ten_three]
  · rw [fdiv_ten_three]
    norm_num
  · rw [fdiv_ten_three]
    norm_num [abs_lt]

theorem division_is_floating_point_witness :
    my_average_sum 0 0 10 % 3 ≠ 0 ∧
    (my_average [] 0 0 10).1 ≠ ((my_average_sum 0 0 10 / 3 : Nat) : ℚ) :=
  ⟨by decide, (division_is_floating_point [] 0 0 10).2.2.2.1 (by decide)⟩

/-! ## Boundaries of the operand types -/

/-- C7: with `a = 0`, for `b` in `{-128, 127}` and `c` in `{0, 2 ^ 32 - 1}`,
every call of `my_average` yields a value: the divided sums are the wrapped
unsigned values 4294967168, 4294967167, 127 and 126, the last one giving
42.0. -/
theorem type_boundaries_compute (cout : Stream) :
    (my_average_sum 0 (-128) 0 = 4294967168 ∧
      my_average cout 0 (-128) 0 = (fdiv 4294967168 3, cout)) ∧
    (my_average_sum 0 (-128) 4294967295 = 4294967167 ∧
      my_average cout 0 (-128) 4294967295 = (fdiv 4294967167 3, cout)) ∧
    (my_average_sum 0 127 0 = 127 ∧
      my_average cout 0 127 0 = (fdiv 127 3, cout)) ∧
    (my_average_sum 0 127 4294967295 = 126 ∧
      my_average cout 0 127 4294967295 = (42, cout)) ∧
    4294967295 = 2 ^ 32 - 1 := by
  have h1 : my_average_sum 0 (-128) 0 = 4294967168 := by decide
  have h2 : my_average_sum 0 (-128) 4294967295 = 4294967167 := by decide
  have h3 : my_average_sum 0 127 0 = 127 := by decide
  have h4 : my_average_sum 0 127 4294967295 = 126 := by decide
  have hf : fdiv 126 3 = 42 := by
    have h := fdiv_three_mul 42
    norm_num at h
    exact h
  refine ⟨⟨h1, ?_⟩, ⟨h2, ?_⟩, ⟨h3, ?_⟩, ⟨h4, ?_⟩, by norm_num⟩
  · rw [my_average_eq, h1]
  · rw [my_average_eq, h2]
  · rw [my_average_eq, h3]
  · rw [my_average_eq, h4, hf]

/-! ## Purity -/

/-- C8: `my_average` is deterministic and pure.  For every `a`, `b`, `c` and
whatever `std::cout` holds, the call returns the `double` quotient by 3.0 of
`(a + b + c) mod 2 ^ 32`, a function of the three arguments only, and leaves
the stream as it found it; a call made from another stream, and a second call
made right after the first, return the identical value. -/
theorem my_average_is_pure (cout cout2 : Stream) (a b : Int) (c : Nat) :
    my_average cout a b c
      = (fdiv ((a + b + (c : Int)) % 4294967296).toNat 3, cout) ∧
    (my_average cout2 a b c).1 = (my_average cout a b c).1 ∧
    (my_average cout2 a b c).2 = cout2 ∧
    my_average (my_average cout a b c).2 a b c = my_average cout a b c ∧
    (my_average cout 0 15 30).1 ≠ (my_average cout 0 0 10).1 := by
  have hf : fdiv 45 3 = 15 := by
    have h := fdiv_three_mul 15
    norm_num at h
    exact h
  have h1 : my_average_sum 0 15 30 = 45 := by decide
  have h2 : my_average_sum 0 0 10 = 10 := by decide
  refine ⟨?_, rfl, rfl, rfl, ?_⟩
  · rw [my_average_eq, my_average_sum_eq]
  · rw [my_average_eq, my_average_eq, h1, h2, hf, fdiv_ten_three]
    norm_num

/-! ## Range of the result -/

/-- C9: when `a + b` fits in an `int`, the sum divided by `my_average` is an
unsigned 32-bit value in `[0, 2 ^ 32 - 1]`, and the value returned is never
negative and never exceeds `(2 ^ 32 - 1) / 3 = 1431655765`, also when the
signed operands are negative. -/
theorem result_within_unsigned_range (cout : Stream) (a b : Int) (c : Nat)
    (_ha : isInt32 a) (_hb : isInt8 b) (_hc : isUInt32 c) (_hab : isInt32 (a + b)) :
    my_average_sum a b c ≤ 4294967295 ∧
    (my_average cout a b c).2 = cout ∧
    0 ≤ (my_average cout a b c).1 ∧
    (my_average cout a b c).1 ≤ 1431655765 ∧
    ((2 ^ 32 - 1 : ℚ) / 3 = 1431655765) := by
  have hlt := my_average_sum_lt a b c
  refine ⟨?_, rfl, fdiv_three_nonneg _, fdiv_three_le _ hlt, by norm_num⟩
  unfold UINT_MOD at hlt
  omega

theorem result_within_unsigned_range_witness :
    (isInt32 (-2147483520) ∧ isInt8 (-128) ∧ isUInt32 0 ∧ isInt32 (-2147483520 + -128)) ∧
    (my_average_sum (-2147483520) (-128) 0 ≤ 4294967295 ∧
      (my_average [] (-2147483520) (-128) 0).2 = [] ∧
      0 ≤ (my_average [] (-2147483520) (-128) 0).1 ∧
      (my_average [] (-2147483520) (-128) 0).1 ≤ 1431655765 ∧
      ((2 ^ 32 - 1 : ℚ) / 3 = 1431655765)) :=
  ⟨⟨by decide, by decide, by decide, by decide⟩,
    result_within_unsigned_range [] (-2147483520) (-128) 0
      (by decide) (by decide) (by decide) (by decide)⟩

/-! ## `Ch02/02_05b` -/

/-- C10: in the Ch02/02_05b program, with the global `b` initialised to 5 and
the global `a` assigned 7 in `main`, the `int` expressions printed are
`a + b = 12` and `b - a = -2`, and the `unsigned int` variable `positive`
assigned from `b - a` holds `(-2) mod 2 ^ 32 = 4294967294`: the same
expression prints as `-2` when signed and as `4294967294` when stored
unsigned. -/
theorem globals_demo_output (a0 : Int) :
    initGlobals = { a := 0, b := 5 } ∧
    addInt 7 5 = 12 ∧
    subInt 5 7 = -2 ∧
    toUnsigned (-2) = 4294967294 ∧
    (-2 : Int) % 2 ^ 32 = 4294967294 ∧
    main_02_05b { a := a0, b := 5 } [] =
      (0, 4294967294, { a := 7, b := 5 },
        [Out.str "a = ", Out.int 7, Out.endl,
         Out.str "b = ", Out.int 5, Out.endl,
         Out.str "flag = ", Out.bool false, Out.endl,
         Out.str "flag = ", Out.bool true, Out.endl,
         Out.str "a + b = ", Out.int 12, Out.endl,
         Out.str "b - a = ", Out.int (-2), Out.endl,
         Out.str "b - a (unsigned) = ", Out.uint 4294967294, Out.endl,
         Out.endl, Out.endl]) ∧
    renderAll (main_02_05b initGlobals []).2.2.2 =
      some ("a = 7\nb = 5\nflag = 0\nflag = 1\na + b = 12\nb - a = -2\n" ++
        "b - a (unsigned) = 4294967294\n\n\n") := by
  refine ⟨rfl, by decide, by decide, by decide, by decide, ?_, by decide⟩
  have h1 : addInt 7 5 = 12 := by decide
  have h2 : subInt 5 7 = -2 := by decide
  have h3 : toUnsigned (-2) = 4294967294 := by decide
  simp only [main_02_05b, h1, h2, h3, List.nil_append, List.cons_append]

end CppFoundations
